import Mathlib

/-!
Shallow embedding of `src/wmr200.c` (Oregon Scientific WMR200 USB HID
communication wrapper).

Bytes are modelled as `Nat` values (with `< 256` hypotheses where byte-ness
matters); packet payloads are `Nat → Nat` index functions mirroring the C
`uchar *` pointers, and C pointer arithmetic `data + k` is `shift_data data k`.
The C `float` fields computed as integer expressions divided by `10.0` are
modelled exactly over `ℚ`.  Timestamps (the result of
`get_reading_time_from_packet`, which calls the external `mktime`) are an
abstract `Int` parameter `t` passed to each decoder; `time(NULL)` in the
heartbeat path is likewise an abstract `now : Int`.  C array indexing into the
flag/string tables is `List.get?` (out-of-bounds reads, undefined behaviour in
C, become `none`).  A call to `exit(1)` is modelled by returning `none`.
-/

/-- C macro `NTH_BIT(n, val) = ((val >> n) & 1)`. -/
def NTH_BIT (n val : Nat) : Nat := (val >>> n) &&& 1

/-- C macro `LOW(b) = (b & 0xF)`. -/
def LOW (b : Nat) : Nat := b &&& 0xF

/-- C macro `HIGH(b) = LOW(b >> 4)`. -/
def HIGH (b : Nat) : Nat := LOW (b >>> 4)

/-- `enum command` constants (wire protocol command bytes). -/
def HEARTBEAT : Nat := 0xD0

def HISTORIC_DATA_NOTIF : Nat := 0xD1

def HISTORIC_DATA : Nat := 0xD2

def REQUEST_HISTORIC_DATA : Nat := 0xDA

def LOGGER_DATA_ERASE : Nat := 0xDB

def COMMUNICATION_STOP : Nat := 0xDF

/-- `enum sign` constants. -/
def SIGN_POSITIVE : Nat := 0x0

def SIGN_NEGATIVE : Nat := 0x8

/-- `0.0254`, the inches-to-metric factor, exact over `ℚ`. -/
def TENTH_OF_INCH : ℚ := 254 / 10000

/-- signal levels -/
def LEVEL_STRING : List String := ["ok", "low"]

/-- status flags -/
def STATUS_STRING : List String := ["ok", "failed"]

/-- forecast icons (7 entries) -/
def FORECAST_STRING : List String :=
  ["partly_cloudy-day", "rainy", "cloudy",
   "sunny", "clear", "snowy",
   "partly_cloudy-night"]

/-- wind direction (16 entries) -/
def WIND_DIR_STRING : List String :=
  ["N", "NNE", "NE", "ENE",
   "E", "ESE", "SE", "SSE",
   "S", "SSW", "SW", "WSW",
   "W", "WNW", "NW", "NNW"]

/-! Reading payloads, one structure per member of the C union in
`wmr_reading`; field names follow the C struct fields. -/

structure wmr_wind where
  dir : Option String
  gust_speed : ℚ
  avg_speed : ℚ
  chill : ℚ
deriving DecidableEq

structure wmr_rain where
  rate : ℚ
  accum_hour : ℚ
  accum_24h : ℚ
  accum_2007 : ℚ
deriving DecidableEq

structure wmr_uvi where
  index : Nat
deriving DecidableEq

structure wmr_baro where
  pressure : Nat
  alt_pressure : Nat
  forecast : Option String
deriving DecidableEq

structure wmr_temp where
  humidity : Nat
  heat_index : Nat
  temp : ℚ
  dew_point : ℚ
  sensor_id : Nat
deriving DecidableEq

structure wmr_status where
  wind_bat : Option String
  temp_bat : Option String
  rain_bat : Option String
  uv_bat : Option String
  wind_sensor : Option String
  temp_sensor : Option String
  rain_sensor : Option String
  uv_sensor : Option String
  rtc_signal_level : Option String
deriving DecidableEq

/-- The `wmr->meta` counters (`ConnectionMeta`). -/
structure wmr_meta where
  num_frames : Nat
  num_bytes : Nat
  num_packets : Nat
  num_failed : Nat
  latest_packet : Int
  uptime : Int
deriving DecidableEq

/-- The tagged union carried by a reading; the tag replaces the C `type`
field (`WMR_WIND`, `WMR_RAIN`, ...). -/
inductive wmr_reading_data where
  | wind (w : wmr_wind)
  | rain (r : wmr_rain)
  | uvi (u : wmr_uvi)
  | baro (b : wmr_baro)
  | temp (t : wmr_temp)
  | status (s : wmr_status)
  | meta (m : wmr_meta)
deriving DecidableEq

/-- One decoded reading: timestamp plus kind-specific payload. -/
structure wmr_reading where
  time : Int
  data : wmr_reading_data
deriving DecidableEq

/-- The `wmr->latest` latest-reading store: one slot per kind, one slot per
temperature sensor index. -/
structure wmr_latest where
  wind : wmr_reading
  rain : wmr_reading
  uvi : wmr_reading
  baro : wmr_reading
  temp : Nat → wmr_reading
  status : wmr_reading
  meta : wmr_reading

/-- Projection helpers used by the theorems below to look inside a reading. -/
def reading_wind (r : wmr_reading) : Option wmr_wind :=
  match r.data with
  | .wind w => some w
  | _ => none

def reading_baro (r : wmr_reading) : Option wmr_baro :=
  match r.data with
  | .baro b => some b
  | _ => none

def reading_temp (r : wmr_reading) : Option wmr_temp :=
  match r.data with
  | .temp td => some td
  | _ => none

def reading_status (r : wmr_reading) : Option wmr_status :=
  match r.data with
  | .status s => some s
  | _ => none

/-- C pointer arithmetic `data + off`. -/
def shift_data (data : Nat → Nat) (off : Nat) : Nat → Nat :=
  fun i => data (off + i)

/-- `update_if_newer`: overwrite `old` with `new` iff `new->time >= old->time`. -/
def update_if_newer (old new : wmr_reading) : wmr_reading :=
  if new.time ≥ old.time then new else old

/-- `process_wind_data`: decode a wind packet payload, merge it into the
store and return the reading handed to `invoke_handlers`. -/
def process_wind_data (latest : wmr_latest) (t : Int) (data : Nat → Nat) :
    wmr_latest × wmr_reading :=
  let dir_flag := LOW (data 7)
  let gust_speed : ℚ := ((256 * LOW (data 10) + data 9 : Nat) : ℚ) / 10
  let avg_speed : ℚ := ((16 * LOW (data 11) + HIGH (data 10) : Nat) : ℚ) / 10
  let chill : ℚ := ((data 12 : Nat) : ℚ)
  let reading : wmr_reading :=
    { time := t,
      data := .wind
        { dir := WIND_DIR_STRING.get? dir_flag,
          gust_speed := gust_speed,
          avg_speed := avg_speed,
          chill := chill } }
  ({ latest with wind := update_if_newer latest.wind reading }, reading)

/-- `process_rain_data`. -/
def process_rain_data (latest : wmr_latest) (t : Int) (data : Nat → Nat) :
    wmr_latest × wmr_reading :=
  let rate : ℚ := (((data 8 <<< 8) + data 7 : Nat) : ℚ) * TENTH_OF_INCH
  let accum_hour : ℚ := (((data 10 <<< 8) + data 9 : Nat) : ℚ) * TENTH_OF_INCH
  let accum_24h : ℚ := (((data 12 <<< 8) + data 11 : Nat) : ℚ) * TENTH_OF_INCH
  let accum_2007 : ℚ := (((data 14 <<< 8) + data 13 : Nat) : ℚ) * TENTH_OF_INCH
  let reading : wmr_reading :=
    { time := t,
      data := .rain
        { rate := rate,
          accum_hour := accum_hour,
          accum_24h := accum_24h,
          accum_2007 := accum_2007 } }
  ({ latest with rain := update_if_newer latest.rain reading }, reading)

/-- `process_uvi_data`. -/
def process_uvi_data (latest : wmr_latest) (t : Int) (data : Nat → Nat) :
    wmr_latest × wmr_reading :=
  let reading : wmr_reading :=
    { time := t, data := .uvi { index := LOW (data 7) } }
  ({ latest with uvi := update_if_newer latest.uvi reading }, reading)

/-- `process_baro_data`. -/
def process_baro_data (latest : wmr_latest) (t : Int) (data : Nat → Nat) :
    wmr_latest × wmr_reading :=
  let pressure := 256 * LOW (data 8) + data 7
  let alt_pressure := 256 * LOW (data 10) + data 9
  let forecast_flag := HIGH (data 8)
  let reading : wmr_reading :=
    { time := t,
      data := .baro
        { pressure := pressure,
          alt_pressure := alt_pressure,
          forecast := FORECAST_STRING.get? forecast_flag } }
  ({ latest with baro := update_if_newer latest.baro reading }, reading)

/-- The reading `process_temp_data` builds once the sensor id check has
passed (it depends only on the timestamp and the payload bytes). -/
def temp_reading (t : Int) (data : Nat → Nat) : wmr_reading :=
  let temp0 : ℚ := ((256 * LOW (data 9) + data 8 : Nat) : ℚ) / 10
  let temp : ℚ := if HIGH (data 9) = SIGN_NEGATIVE then -temp0 else temp0
  let dew0 : ℚ := ((256 * LOW (data 12) + data 11 : Nat) : ℚ) / 10
  let dew_point : ℚ := if HIGH (data 12) = SIGN_NEGATIVE then -dew0 else dew0
  { time := t,
    data := .temp
      { humidity := data 10,
        heat_index := data 13,
        temp := temp,
        dew_point := dew_point,
        sensor_id := LOW (data 7) } }

/-- `process_temp_data`: `none` models the `exit(1)` taken when
`sensor_id > 1`, before any reading is built, any slot is written or any
handler is invoked. -/
def process_temp_data (latest : wmr_latest) (t : Int) (data : Nat → Nat) :
    Option (wmr_latest × wmr_reading) :=
  let sensor_id := LOW (data 7)
  if sensor_id > 1 then
    none
  else
    let reading := temp_reading t data
    some
      ({ latest with
          temp := Function.update latest.temp sensor_id
            (update_if_newer (latest.temp sensor_id) reading) },
        reading)

/-- `process_status_data`. -/
def process_status_data (latest : wmr_latest) (t : Int) (data : Nat → Nat) :
    wmr_latest × wmr_reading :=
  let wind_bat_flag := NTH_BIT 0 (data 4)
  let temp_bat_flag := NTH_BIT 1 (data 4)
  let rain_bat_flag := NTH_BIT 4 (data 5)
  let uv_bat_flag := NTH_BIT 5 (data 5)
  let wind_sensor_flag := NTH_BIT 0 (data 2)
  let temp_sensor_flag := NTH_BIT 1 (data 2)
  let rain_sensor_flag := NTH_BIT 4 (data 3)
  let uv_sensor_flag := NTH_BIT 5 (data 3)
  let rtc_signal_flag := NTH_BIT 8 (data 4)
  let reading : wmr_reading :=
    { time := t,
      data := .status
        { wind_bat := LEVEL_STRING.get? wind_bat_flag,
          temp_bat := LEVEL_STRING.get? temp_bat_flag,
          rain_bat := LEVEL_STRING.get? rain_bat_flag,
          uv_bat := LEVEL_STRING.get? uv_bat_flag,
          wind_sensor := STATUS_STRING.get? wind_sensor_flag,
          temp_sensor := STATUS_STRING.get? temp_sensor_flag,
          rain_sensor := STATUS_STRING.get? rain_sensor_flag,
          uv_sensor := STATUS_STRING.get? uv_sensor_flag,
          rtc_signal_level := LEVEL_STRING.get? rtc_signal_flag } }
  ({ latest with status := update_if_newer latest.status reading }, reading)

/-- `emit_meta_packet`: the heartbeat loop's synthetic ConnectionMeta
reading.  Note the store's `meta` slot is assigned unconditionally, not
through `update_if_newer`. -/
def emit_meta_packet (latest : wmr_latest) (meta : wmr_meta)
    (conn_since now : Int) : wmr_latest × wmr_reading :=
  let meta' := { meta with uptime := now - conn_since }
  let reading : wmr_reading := { time := now, data := .meta meta' }
  ({ latest with meta := reading }, reading)

/-- The external-sensor loop of `process_historic_data`: decode `n`
external temperature records starting at sensor index `i` (payload offset
`33 + 7*i`), threading the store; `none` when any record hits the fatal
sensor-id path. -/
def historic_ext_loop (t : Int) (data : Nat → Nat) (i : Nat) :
    Nat → wmr_latest → Option (wmr_latest × List wmr_reading)
  | 0, latest => some (latest, [])
  | n + 1, latest =>
    match process_temp_data latest t (shift_data data (33 + 7 * i)) with
    | none => none
    | some (l, r) =>
      match historic_ext_loop t data (i + 1) n l with
      | none => none
      | some (l2, rs) => some (l2, r :: rs)

/-- `process_historic_data`, parametric in the configured maximum number of
external temperature sensors (`WMR200_MAX_TEMP_SENSORS`, declared in the
repository's header).  Result: updated store, the readings handed to
`invoke_handlers` in order, and the number of warnings logged. -/
def process_historic_data (maxT : Nat) (latest : wmr_latest) (t : Int)
    (data : Nat → Nat) : Option (wmr_latest × List wmr_reading × Nat) :=
  let s1 := process_rain_data latest t data
  let s2 := process_wind_data s1.1 t (shift_data data 13)
  let s3 := process_uvi_data s2.1 t (shift_data data 20)
  let s4 := process_baro_data s3.1 t (shift_data data 21)
  match process_temp_data s4.1 t (shift_data data 26) with
  | none => none
  | some s5 =>
    let ext_sensor_count := data 32
    let warnings := if ext_sensor_count > maxT then 1 else 0
    let count := min ext_sensor_count maxT
    match historic_ext_loop t data 0 count s5.1 with
    | none => none
    | some (l6, rs) =>
      some (l6, s1.2 :: s2.2 :: s3.2 :: s4.2 :: s5.2 :: rs, warnings)

/-- `verify_packet`: `true` models the C return value `0` (valid).  The C
accumulator `sum` is an `uint_t` (32-bit), hence the `% 2^32`. -/
def verify_packet (packet_len : Nat) (packet : Nat → Nat) : Bool :=
  if packet_len ≤ 2 then
    false
  else
    let sum := (List.range (packet_len - 2)).foldl
      (fun s i => (s + packet i) % 2 ^ 32) 0
    let checksum :=
      (256 * packet (packet_len - 1) + packet (packet_len - 2)) % 2 ^ 32
    decide (sum = checksum)

/-- Result of one pass of the framing code in `mainloop`, starting from the
point labelled `act_on_packet_type` with a candidate packet type in hand:
either an immediate-action command was handled, or a packet buffer
`{type, length, payload...}` was assembled (with the rest of the byte
stream returned), or the modelled finite byte stream ran out. -/
inductive framer_result where
  | request_historic (rest : List Nat)
  | logger_erase (rest : List Nat)
  | packet (buf : List Nat) (rest : List Nat)
  | out_of_input
deriving DecidableEq

/-- The `act_on_packet_type` resync logic of `mainloop`: immediate-action
commands short-circuit; otherwise the next byte is read as a length unless
it falls in the command range `[0xD0, 0xDF]`, in which case it becomes the
new packet type (the C `goto act_on_packet_type`).  The assembled buffer is
`type :: length :: payload` with `length - 2` payload bytes consumed, as in
the C allocation and fill loop. -/
def act_on_packet_type (ptype : Nat) (input : List Nat) : framer_result :=
  if ptype = HISTORIC_DATA_NOTIF then
    .request_historic input
  else if ptype = LOGGER_DATA_ERASE then
    .logger_erase input
  else
    match input with
    | [] => .out_of_input
    | plen :: rest =>
      if 0xD0 ≤ plen ∧ plen ≤ 0xDF then
        act_on_packet_type plen rest
      else
        .packet (ptype :: plen :: rest.take (plen - 2)) (rest.drop (plen - 2))
termination_by input.length
decreasing_by simp_all [Nat.lt_succ_iff]

/-! Concrete sample values used by witnesses and counterexamples. -/

/-- A simple reading with timestamp 10 to populate sample stores. -/
def reading0 : wmr_reading := ⟨10, .uvi ⟨0⟩⟩

/-- A sample store whose every slot holds `reading0` (timestamp 10). -/
def latest0 : wmr_latest :=
  ⟨reading0, reading0, reading0, reading0, fun _ => reading0, reading0, reading0⟩

/-- Zeroed ConnectionMeta counters. -/
def meta0 : wmr_meta := ⟨0, 0, 0, 0, 0, 0⟩

/-- A temperature payload: magnitude 123 (= 12.3 units) in bytes 8–9 and
11–12, sign nibbles set to the negative marker (bytes 9 and 12 are 0x80). -/
def temp_sample : Nat → Nat := fun i =>
  if i = 8 then 123
  else if i = 11 then 123
  else if i = 9 then 0x80
  else if i = 12 then 0x80
  else 0

/-- A historic payload whose external-sensor count byte (offset 32) is 200;
all other bytes zero (so every embedded sensor id is 0). -/
def historic_sample : Nat → Nat := fun i => if i = 32 then 200 else 0

/-! Bridging lemmas between the C bit macros and plain arithmetic. -/

theorem LOW_eq_mod (b : Nat) : LOW b = b % 16 := by
  have h := Nat.and_pow_two_sub_one_eq_mod b 4
  simp only [show (2 : Nat) ^ 4 - 1 = 15 from rfl, show (2 : Nat) ^ 4 = 16 from rfl] at h
  exact h

theorem HIGH_eq_div_mod (b : Nat) : HIGH b = b / 16 % 16 := by
  unfold HIGH
  rw [LOW_eq_mod, Nat.shiftRight_eq_div_pow]

theorem NTH_BIT_eq_div_mod (n b : Nat) : NTH_BIT n b = b / 2 ^ n % 2 := by
  unfold NTH_BIT
  rw [Nat.shiftRight_eq_div_pow]
  have h := Nat.and_pow_two_sub_one_eq_mod (b / 2 ^ n) 1
  simp only [show (2 : Nat) ^ 1 - 1 = 1 from rfl, show (2 : Nat) ^ 1 = 2 from rfl] at h
  exact h

theorem nth_bit_8_eq_zero (b : Nat) (h : b < 256) : NTH_BIT 8 b = 0 := by
  rw [NTH_BIT_eq_div_mod]
  have : b / 2 ^ 8 = 0 := Nat.div_eq_of_lt (by omega)
  rw [this]

/-- A slot only changes value when the incoming reading is at least as new. -/
theorem update_if_newer_changed (old nw : wmr_reading)
    (h : update_if_newer old nw ≠ old) : old.time ≤ nw.time := by
  by_cases hc : nw.time ≥ old.time
  · exact hc
  · exfalso
    apply h
    unfold update_if_newer
    rw [if_neg hc]

/-- C3: for a slot holding a reading with timestamp T1 and an incoming
reading with timestamp T2 (a distinct reading object), after
`update_if_newer` the slot holds the incoming reading iff `T2 >= T1`, and
is unchanged iff `T2 < T1`. -/
theorem update_if_newer_replaces_iff (old nw : wmr_reading) (hne : old ≠ nw) :
    (update_if_newer old nw = nw ↔ nw.time ≥ old.time) ∧
    (update_if_newer old nw = old ↔ nw.time < old.time) := by
  unfold update_if_newer
  by_cases h : nw.time ≥ old.time
  · rw [if_pos h]
    constructor
    · simp [h]
    · constructor
      · intro he
        exact absurd he.symm hne
      · intro hlt
        omega
  · rw [if_neg h]
    push_neg at h
    constructor
    · constructor
      · intro he
        exact absurd he hne
      · intro hge
        omega
    · simp [h]

theorem update_if_newer_replaces_iff_witness :
    (update_if_newer ⟨10, .uvi ⟨0⟩⟩ ⟨12, .uvi ⟨3⟩⟩ = ⟨12, .uvi ⟨3⟩⟩ ↔
      (wmr_reading.mk 12 (.uvi ⟨3⟩)).time ≥ (wmr_reading.mk 10 (.uvi ⟨0⟩)).time) ∧
    (update_if_newer ⟨10, .uvi ⟨0⟩⟩ ⟨12, .uvi ⟨3⟩⟩ = ⟨10, .uvi ⟨0⟩⟩ ↔
      (wmr_reading.mk 12 (.uvi ⟨3⟩)).time < (wmr_reading.mk 10 (.uvi ⟨0⟩)).time) :=
  update_if_newer_replaces_iff ⟨10, .uvi ⟨0⟩⟩ ⟨12, .uvi ⟨3⟩⟩ (by decide)

/-- C4 (counterexample): the heartbeat's `emit_meta_packet` overwrites the
ConnectionMeta slot unconditionally: starting from a store whose meta slot
has timestamp 10, emitting at wall-clock time 5 still replaces the slot,
violating the claimed "overwrite only when incoming timestamp >= stored". -/
theorem emit_meta_overwrites_older :
    (emit_meta_packet latest0 meta0 0 5).1.meta ≠ latest0.meta ∧
    (emit_meta_packet latest0 meta0 0 5).1.meta.time < latest0.meta.time := by
  constructor
  · decide
  · decide

/-- C4 (amended): every store write that goes through `update_if_newer`
(the Wind, Rain, UVIndex, Barometric, Status and Temperature slots)
overwrites a slot only when the incoming reading's timestamp is >= the
stored one; the ConnectionMeta slot, written by the heartbeat's
`emit_meta_packet`, is instead overwritten unconditionally with the
current wall-clock time. -/
theorem store_update_monotonic_except_meta (latest : wmr_latest) (t : Int)
    (data : Nat → Nat) (meta : wmr_meta) (conn_since now : Int) :
    ((process_wind_data latest t data).1.wind ≠ latest.wind → latest.wind.time ≤ t) ∧
    ((process_rain_data latest t data).1.rain ≠ latest.rain → latest.rain.time ≤ t) ∧
    ((process_uvi_data latest t data).1.uvi ≠ latest.uvi → latest.uvi.time ≤ t) ∧
    ((process_baro_data latest t data).1.baro ≠ latest.baro → latest.baro.time ≤ t) ∧
    ((process_status_data latest t data).1.status ≠ latest.status →
      latest.status.time ≤ t) ∧
    (∀ l r j, process_temp_data latest t data = some (l, r) →
      l.temp j ≠ latest.temp j → (latest.temp j).time ≤ t) ∧
    (emit_meta_packet latest meta conn_since now).1.meta.time = now := by
  refine ⟨?_, ?_, ?_, ?_, ?_, ?_, rfl⟩
  · intro h
    exact update_if_newer_changed _ _ h
  · intro h
    exact update_if_newer_changed _ _ h
  · intro h
    exact update_if_newer_changed _ _ h
  · intro h
    exact update_if_newer_changed _ _ h
  · intro h
    exact update_if_newer_changed _ _ h
  · intro l r j hsome hne
    unfold process_temp_data at hsome
    by_cases hid : LOW (data 7) > 1
    · rw [if_pos hid] at hsome
      exact absurd hsome (by simp)
    · rw [if_neg hid] at hsome
      obtain ⟨hl, _⟩ := Prod.mk.injEq .. ▸ Option.some.injEq .. ▸ hsome
      by_cases hj : j = LOW (data 7)
      · subst hj
        rw [← hl] at hne
        simp only [Function.update_same] at hne
        exact update_if_newer_changed _ _ hne
      · rw [← hl] at hne
        simp only [Function.update_noteq hj] at hne
        exact absurd rfl hne

/-- C8: a temperature packet whose sensor id (low nibble of byte 7) exceeds
1 takes the fatal `exit(1)` path: no reading is produced, no slot written,
no handler invoked (modelled by the `none` result). -/
theorem temp_unknown_sensor_fatal (latest : wmr_latest) (t : Int)
    (data : Nat → Nat) (h : 1 < LOW (data 7)) :
    process_temp_data latest t data = none := by
  unfold process_temp_data
  rw [if_pos h]

theorem temp_unknown_sensor_fatal_witness :
    process_temp_data latest0 0 (fun _ => 5) = none :=
  temp_unknown_sensor_fatal latest0 0 (fun _ => 5) (by decide)

/-- Any packet buffer the framer assembles starts `type :: length :: _`
with a length byte outside the command-marker range `[0xD0, 0xDF]`. -/
theorem act_packet_shape :
    ∀ (input : List Nat) (ptype : Nat) (buf rem : List Nat),
      act_on_packet_type ptype input = .packet buf rem →
      ∃ pt plen tail, buf = pt :: plen :: tail ∧ ¬(0xD0 ≤ plen ∧ plen ≤ 0xDF) := by
  intro input
  induction input with
  | nil =>
    intro ptype buf rem h
    unfold act_on_packet_type at h
    split_ifs at h
  | cons L rest ih =>
    intro ptype buf rem h
    unfold act_on_packet_type at h
    split_ifs at h with h1 h2
    dsimp only at h
    by_cases h3 : 0xD0 ≤ L ∧ L ≤ 0xDF
    · rw [if_pos h3] at h
      exact ih L buf rem h
    · rw [if_neg h3] at h
      refine ⟨ptype, L, rest.take (L - 2), ?_, h3⟩
      injection h with hbuf hrem
      exact hbuf.symm

/-- C1: after a (non-immediate-action) type byte, a length byte `L` in the
command-marker range `[0xD0, 0xDF]` is treated as a new packet type and the
framer re-enters the immediate-action check with no buffer allocated and no
payload byte consumed for it; an `L` outside the range is taken as the
declared packet length (buffer `type :: L :: payload`, `L - 2` payload
bytes read); consequently no assembled packet ever carries a length byte in
the marker range. -/
theorem framer_length_marker_resync (ptype L : Nat) (rest : List Nat)
    (h1 : ptype ≠ HISTORIC_DATA_NOTIF) (h2 : ptype ≠ LOGGER_DATA_ERASE) :
    ((0xD0 ≤ L ∧ L ≤ 0xDF) →
      act_on_packet_type ptype (L :: rest) = act_on_packet_type L rest) ∧
    (¬(0xD0 ≤ L ∧ L ≤ 0xDF) →
      act_on_packet_type ptype (L :: rest) =
        .packet (ptype :: L :: rest.take (L - 2)) (rest.drop (L - 2))) ∧
    (∀ buf rem, act_on_packet_type ptype (L :: rest) = .packet buf rem →
      ∃ pt plen tail, buf = pt :: plen :: tail ∧ ¬(0xD0 ≤ plen ∧ plen ≤ 0xDF)) := by
  refine ⟨?_, ?_, fun buf rem h => act_packet_shape (L :: rest) ptype buf rem h⟩
  · intro hin
    conv_lhs => unfold act_on_packet_type
    rw [if_neg h1, if_neg h2]
    dsimp only
    rw [if_pos hin]
  · intro hout
    conv_lhs => unfold act_on_packet_type
    rw [if_neg h1, if_neg h2]
    dsimp only
    rw [if_neg hout]

theorem framer_length_marker_resync_witness :
    ((0xD0 ≤ 0xD5 ∧ (0xD5 : Nat) ≤ 0xDF) →
      act_on_packet_type 0xD2 (0xD5 :: [4, 9, 9, 9]) = act_on_packet_type 0xD5 [4, 9, 9, 9]) ∧
    (¬(0xD0 ≤ 0xD5 ∧ (0xD5 : Nat) ≤ 0xDF) →
      act_on_packet_type 0xD2 (0xD5 :: [4, 9, 9, 9]) =
        .packet (0xD2 :: 0xD5 :: [4, 9, 9, 9].take (0xD5 - 2)) ([4, 9, 9, 9].drop (0xD5 - 2))) ∧
    (∀ buf rem, act_on_packet_type 0xD2 (0xD5 :: [4, 9, 9, 9]) = .packet buf rem →
      ∃ pt plen tail, buf = pt :: plen :: tail ∧ ¬(0xD0 ≤ plen ∧ plen ≤ 0xDF)) :=
  framer_length_marker_resync 0xD2 0xD5 [4, 9, 9, 9] (by decide) (by decide)

/-- Folding `(s + f i) % M` over `range n` equals the plain sum mod `M`. -/
theorem foldl_add_mod (M : Nat) (f : Nat → Nat) (n : Nat) :
    (List.range n).foldl (fun s i => (s + f i) % M) 0 =
      (∑ i in Finset.range n, f i) % M := by
  induction n with
  | zero => simp
  | succ k ih =>
    rw [List.range_succ, List.foldl_append, ih]
    simp only [List.foldl_cons, List.foldl_nil]
    rw [Nat.mod_add_mod, Finset.sum_range_succ]

/-- C2: `verify_packet` accepts exactly when the declared length exceeds 2
and the (unwrapped) sum of all bytes but the trailing two equals the 16-bit
little-endian trailer; in particular it rejects any `length <= 2`. -/
theorem verify_packet_iff (packet_len : Nat) (packet : Nat → Nat)
    (hlen : packet_len ≤ 255) (hbytes : ∀ i, i < packet_len → packet i < 256) :
    (verify_packet packet_len packet = true ↔
      2 < packet_len ∧
        ∑ i in Finset.range (packet_len - 2), packet i =
          256 * packet (packet_len - 1) + packet (packet_len - 2)) := by
  unfold verify_packet
  by_cases h : packet_len ≤ 2
  · rw [if_pos h]
    constructor
    · intro hf
      exact absurd hf (by simp)
    · intro ⟨h2, _⟩
      omega
  · rw [if_neg h]
    rw [foldl_add_mod]
    have hsum : (∑ i in Finset.range (packet_len - 2), packet i) < 2 ^ 32 := by
      calc (∑ i in Finset.range (packet_len - 2), packet i)
          ≤ ∑ _i in Finset.range (packet_len - 2), 255 := by
            refine Finset.sum_le_sum ?_
            intro i hi
            have hi2 := Finset.mem_range.mp hi
            have := hbytes i (by omega)
            omega
        _ = (packet_len - 2) * 255 := by
            rw [Finset.sum_const, Finset.card_range, smul_eq_mul]
        _ ≤ 253 * 255 := Nat.mul_le_mul_right 255 (by omega)
        _ < 2 ^ 32 := by norm_num
    have hck : 256 * packet (packet_len - 1) + packet (packet_len - 2) < 2 ^ 32 := by
      have hb1 := hbytes (packet_len - 1) (by omega)
      have hb2 := hbytes (packet_len - 2) (by omega)
      have : 256 * packet (packet_len - 1) ≤ 256 * 255 :=
        Nat.mul_le_mul_left 256 (by omega)
      omega
    rw [Nat.mod_eq_of_lt hsum, Nat.mod_eq_of_lt hck]
    constructor
    · intro hd
      exact ⟨by omega, of_decide_eq_true hd⟩
    · intro ⟨_, he⟩
      exact decide_eq_true he

theorem verify_packet_iff_witness :
    verify_packet 5 (fun i => [0xD2, 5, 20, 235, 0].getD i 0) = true ↔
      2 < 5 ∧
        ∑ i in Finset.range (5 - 2), (fun i => [0xD2, 5, 20, 235, 0].getD i 0) i =
          256 * (fun i => [0xD2, 5, 20, 235, 0].getD i 0) (5 - 1) +
            (fun i => [0xD2, 5, 20, 235, 0].getD i 0) (5 - 2) :=
  verify_packet_iff 5 (fun i => [0xD2, 5, 20, 235, 0].getD i 0) (by norm_num)
    (by decide)

/-- `process_temp_data` on a supported sensor id: the updated store and the
emitted reading, spelled out. -/
theorem process_temp_data_some (latest : wmr_latest) (t : Int) (d : Nat → Nat)
    (h : LOW (d 7) ≤ 1) :
    process_temp_data latest t d =
      some
        ({ latest with
            temp :=
              Function.update latest.temp (LOW (d 7))
                (update_if_newer (latest.temp (LOW (d 7))) (temp_reading t d)) },
          temp_reading t d) := by
  unfold process_temp_data
  rw [if_neg (by omega)]

/-- C5: a temperature payload carrying magnitude 123 (i.e. 12.3 units) in
bytes 8–9 decodes to -12.3 when the sign nibble of byte 9 is the negative
marker 0x8, and to +12.3 when it is the positive marker 0x0; the dew point
is decoded identically from bytes 11–12 with the sign nibble of byte 12. -/
theorem temp_decode_roundtrip (latest : wmr_latest) (t : Int) (d : Nat → Nat)
    (hid : LOW (d 7) ≤ 1) (h8 : d 8 = 123) (h9 : LOW (d 9) = 0)
    (h11 : d 11 = 123) (h12 : LOW (d 12) = 0) :
    ∃ l r td, process_temp_data latest t d = some (l, r) ∧
      reading_temp r = some td ∧
      (HIGH (d 9) = SIGN_NEGATIVE → td.temp = -(12.3 : ℚ)) ∧
      (HIGH (d 9) = SIGN_POSITIVE → td.temp = (12.3 : ℚ)) ∧
      (HIGH (d 12) = SIGN_NEGATIVE → td.dew_point = -(12.3 : ℚ)) ∧
      (HIGH (d 12) = SIGN_POSITIVE → td.dew_point = (12.3 : ℚ)) := by
  have hmag : ((256 * LOW (d 9) + d 8 : Nat) : ℚ) / 10 = (12.3 : ℚ) := by
    rw [h8, h9]
    norm_num
  have hmag2 : ((256 * LOW (d 12) + d 11 : Nat) : ℚ) / 10 = (12.3 : ℚ) := by
    rw [h11, h12]
    norm_num
  refine ⟨_, _, _, process_temp_data_some latest t d hid, rfl, ?_, ?_, ?_, ?_⟩
  · intro hneg
    show (if HIGH (d 9) = SIGN_NEGATIVE then -(((256 * LOW (d 9) + d 8 : Nat) : ℚ) / 10)
      else ((256 * LOW (d 9) + d 8 : Nat) : ℚ) / 10) = -(12.3 : ℚ)
    rw [if_pos hneg, hmag]
  · intro hpos
    show (if HIGH (d 9) = SIGN_NEGATIVE then -(((256 * LOW (d 9) + d 8 : Nat) : ℚ) / 10)
      else ((256 * LOW (d 9) + d 8 : Nat) : ℚ) / 10) = (12.3 : ℚ)
    rw [if_neg (by rw [hpos]; unfold SIGN_POSITIVE SIGN_NEGATIVE; omega), hmag]
  · intro hneg
    show (if HIGH (d 12) = SIGN_NEGATIVE then -(((256 * LOW (d 12) + d 11 : Nat) : ℚ) / 10)
      else ((256 * LOW (d 12) + d 11 : Nat) : ℚ) / 10) = -(12.3 : ℚ)
    rw [if_pos hneg, hmag2]
  · intro hpos
    show (if HIGH (d 12) = SIGN_NEGATIVE then -(((256 * LOW (d 12) + d 11 : Nat) : ℚ) / 10)
      else ((256 * LOW (d 12) + d 11 : Nat) : ℚ) / 10) = (12.3 : ℚ)
    rw [if_neg (by rw [hpos]; unfold SIGN_POSITIVE SIGN_NEGATIVE; omega), hmag2]

theorem temp_decode_roundtrip_witness :
    ∃ l r td, process_temp_data latest0 0 temp_sample = some (l, r) ∧
      reading_temp r = some td ∧
      (HIGH (temp_sample 9) = SIGN_NEGATIVE → td.temp = -(12.3 : ℚ)) ∧
      (HIGH (temp_sample 9) = SIGN_POSITIVE → td.temp = (12.3 : ℚ)) ∧
      (HIGH (temp_sample 12) = SIGN_NEGATIVE → td.dew_point = -(12.3 : ℚ)) ∧
      (HIGH (temp_sample 12) = SIGN_POSITIVE → td.dew_point = (12.3 : ℚ)) :=
  temp_decode_roundtrip latest0 0 temp_sample (by decide) (by decide) (by decide)
    (by decide) (by decide)

/-- C7: the wind decoder: direction is the 16-entry compass table entry
indexed by the low nibble of byte 7 (nibble 0 decodes to "N"), gust speed
is (256 * low-nibble(byte 10) + byte 9) / 10, average speed is
(16 * low-nibble(byte 11) + high-nibble(byte 10)) / 10, and wind chill is
raw byte 12 carried through unchanged. -/
theorem wind_decode_correct (latest : wmr_latest) (t : Int) (data : Nat → Nat) :
    ∃ w, reading_wind (process_wind_data latest t data).2 = some w ∧
      w.dir = WIND_DIR_STRING.get? (data 7 % 16) ∧
      (data 7 % 16 = 0 → w.dir = some "N") ∧
      w.gust_speed = ((256 * (data 10 % 16) + data 9 : Nat) : ℚ) / 10 ∧
      w.avg_speed = ((16 * (data 11 % 16) + data 10 / 16 % 16 : Nat) : ℚ) / 10 ∧
      w.chill = ((data 12 : Nat) : ℚ) := by
  refine ⟨_, rfl, ?_, ?_, ?_, ?_, rfl⟩
  · show WIND_DIR_STRING.get? (LOW (data 7)) = WIND_DIR_STRING.get? (data 7 % 16)
    rw [LOW_eq_mod]
  · intro h0
    show WIND_DIR_STRING.get? (LOW (data 7)) = some "N"
    rw [LOW_eq_mod, h0]
    rfl
  · show ((256 * LOW (data 10) + data 9 : Nat) : ℚ) / 10 =
      ((256 * (data 10 % 16) + data 9 : Nat) : ℚ) / 10
    rw [LOW_eq_mod]
  · show ((16 * LOW (data 11) + HIGH (data 10) : Nat) : ℚ) / 10 =
      ((16 * (data 11 % 16) + data 10 / 16 % 16 : Nat) : ℚ) / 10
    rw [LOW_eq_mod, HIGH_eq_div_mod]

/-- C9 fails on the code: a barometric payload with byte 8 = 0x70 makes the
forecast index `HIGH(data[8]) = 7`, which is not `< 7` and reads past the
end of the 7-entry `FORECAST_STRING` table (an out-of-bounds access in the
C source, `none` in this model). -/
theorem baro_forecast_index_out_of_bounds :
    HIGH 0x70 = 7 ∧ FORECAST_STRING.length = 7 ∧
      ∃ b, reading_baro
          (process_baro_data latest0 0 (fun i => if i = 8 then 0x70 else 0)).2 =
          some b ∧
        b.forecast = none := by
  refine ⟨by decide, by decide, _, rfl, ?_⟩
  decide

/-- C10: the RTC signal flag of a status packet is extracted as bit 8 of
the 8-bit byte 4, which is always 0, so `rtc_signal_level` is always "ok"
and no two status readings can differ in it. -/
theorem status_rtc_always_ok (latest : wmr_latest) (t : Int) (data : Nat → Nat)
    (h : data 4 < 256) :
    ∃ s, reading_status (process_status_data latest t data).2 = some s ∧
      s.rtc_signal_level = some "ok" ∧
      ∀ (latest2 : wmr_latest) (t2 : Int) (data2 : Nat → Nat), data2 4 < 256 →
        ∃ s2, reading_status (process_status_data latest2 t2 data2).2 = some s2 ∧
          s2.rtc_signal_level = s.rtc_signal_level := by
  have key : ∀ b : Nat, b < 256 → LEVEL_STRING.get? (NTH_BIT 8 b) = some "ok" := by
    intro b hb
    rw [nth_bit_8_eq_zero b hb]
    rfl
  refine ⟨_, rfl, ?_, ?_⟩
  · show LEVEL_STRING.get? (NTH_BIT 8 (data 4)) = some "ok"
    exact key (data 4) h
  · intro latest2 t2 data2 h2
    refine ⟨_, rfl, ?_⟩
    show LEVEL_STRING.get? (NTH_BIT 8 (data2 4)) =
      LEVEL_STRING.get? (NTH_BIT 8 (data 4))
    rw [key (data 4) h, key (data2 4) h2]

theorem status_rtc_always_ok_witness :
    ∃ s, reading_status (process_status_data latest0 0 (fun _ => 0)).2 = some s ∧
      s.rtc_signal_level = some "ok" ∧
      ∀ (latest2 : wmr_latest) (t2 : Int) (data2 : Nat → Nat), data2 4 < 256 →
        ∃ s2, reading_status (process_status_data latest2 t2 data2).2 = some s2 ∧
          s2.rtc_signal_level = s.rtc_signal_level :=
  status_rtc_always_ok latest0 0 (fun _ => 0) (by decide)

/-- The external-sensor loop succeeds and produces one reading per
requested sensor (at payload stride 7 from offset 33) whenever every
requested record carries a supported sensor id. -/
theorem historic_ext_loop_ok (t : Int) (data : Nat → Nat) :
    ∀ (n i : Nat) (latest : wmr_latest),
      (∀ k, k < n → LOW (data (33 + 7 * (i + k) + 7)) ≤ 1) →
      ∃ l rs, historic_ext_loop t data i n latest = some (l, rs) ∧
        rs.length = n ∧
        ∀ k, k < n →
          rs.get? k = some (temp_reading t (shift_data data (33 + 7 * (i + k)))) := by
  intro n
  induction n with
  | zero =>
    intro i latest _
    exact ⟨latest, [], rfl, rfl, fun k hk => absurd hk (by omega)⟩
  | succ m ih =>
    intro i latest hval
    have h0 : LOW (shift_data data (33 + 7 * i) 7) ≤ 1 := by
      have h := hval 0 (by omega)
      simp only [Nat.add_zero] at h
      exact h
    have hval2 : ∀ k, k < m → LOW (data (33 + 7 * (i + 1 + k) + 7)) ≤ 1 := by
      intro k hk
      have h := hval (k + 1) (by omega)
      have harith : 33 + 7 * (i + (k + 1)) + 7 = 33 + 7 * (i + 1 + k) + 7 := by ring
      rw [harith] at h
      exact h
    obtain ⟨l2, rs, hrec, hlen, hget⟩ := ih (i + 1)
      { latest with
        temp :=
          Function.update latest.temp (LOW (shift_data data (33 + 7 * i) 7))
            (update_if_newer (latest.temp (LOW (shift_data data (33 + 7 * i) 7)))
              (temp_reading t (shift_data data (33 + 7 * i)))) } hval2
    refine ⟨l2, temp_reading t (shift_data data (33 + 7 * i)) :: rs, ?_, by simp [hlen], ?_⟩
    · show historic_ext_loop t data i (m + 1) latest = _
      simp only [historic_ext_loop, process_temp_data_some _ _ _ h0, hrec]
    · intro k hk
      match k with
      | 0 =>
        simp only [List.get?]
        rw [Nat.add_zero]
      | Nat.succ k2 =>
        have h := hget k2 (by omega)
        have harith : 33 + 7 * (i + 1 + k2) = 33 + 7 * (i + (k2 + 1)) := by ring
        rw [harith] at h
        simp only [List.get?]
        exact h

/-- C6: a historic packet whose external-sensor count byte (offset 32)
exceeds the configured maximum decodes temperature readings for exactly
the maximum number of external sensors (at stride 7 from offset 33), emits
exactly one warning, and never attempts the excess sensors. -/
theorem historic_clamps_ext_sensors (maxT : Nat) (latest : wmr_latest) (t : Int)
    (data : Nat → Nat) (hcount : maxT < data 32) (hmain : LOW (data 33) ≤ 1)
    (hext : ∀ k, k < maxT → LOW (data (33 + 7 * k + 7)) ≤ 1) :
    ∃ l main ext,
      process_historic_data maxT latest t data = some (l, main ++ ext, 1) ∧
      main.length = 5 ∧ ext.length = maxT ∧
      ∀ k, k < maxT →
        ext.get? k = some (temp_reading t (shift_data data (33 + 7 * k))) := by
  have hmain2 : LOW (shift_data data 26 7) ≤ 1 := hmain
  have hval : ∀ k, k < maxT → LOW (data (33 + 7 * (0 + k) + 7)) ≤ 1 := by
    intro k hk
    rw [Nat.zero_add]
    exact hext k hk
  obtain ⟨l6, rs, hloop, hlen, hget⟩ := historic_ext_loop_ok t data maxT 0 _ hval
  have hmin : min (data 32) maxT = maxT := Nat.min_eq_right (Nat.le_of_lt hcount)
  unfold process_historic_data
  dsimp only
  rw [process_temp_data_some _ _ _ hmain2]
  dsimp only
  rw [if_pos hcount, hmin, hloop]
  refine ⟨l6, [_, _, _, _, _], rs, rfl, rfl, hlen, ?_⟩
  intro k hk
  have h := hget k hk
  rw [Nat.zero_add] at h
  exact h

theorem historic_clamps_ext_sensors_witness :
    ∃ l main ext,
      process_historic_data 2 latest0 0 historic_sample = some (l, main ++ ext, 1) ∧
      main.length = 5 ∧ ext.length = 2 ∧
      ∀ k, k < 2 →
        ext.get? k = some (temp_reading 0 (shift_data historic_sample (33 + 7 * k))) :=
  historic_clamps_ext_sensors 2 latest0 0 historic_sample (by decide) (by decide)
    (by decide)
